import Mathlib

/-!
Shallow embedding of the credit-risk underwriting calculators
(`src/backend/app/tools.py`) and proofs about them.

Python floats are idealized as rationals (ℚ), Python ints as ℤ, and
`round(x, n)` as rounding `x * 10^n` to the nearest integer.  Every
calculator that can return `{"error": ...}` is embedded with an explicit
error constructor, mirroring the dict-with-optional-error protocol.
-/

namespace CreditRisk

/-- Rounding to two decimal places, modelling Python `round(x, 2)` on the
rational idealization of floats. -/
def round2 (x : ℚ) : ℚ := ((round (100 * x) : ℤ) : ℚ) / 100

/-- Rounding to four decimal places, modelling Python `round(x, 4)`. -/
def round4 (x : ℚ) : ℚ := ((round (10000 * x) : ℤ) : ℚ) / 10000

/-- The three-tier (plus VERY_HIGH, used only by the classifier) risk buckets
appearing in the tools' `risk_category` fields. -/
inductive RiskCat
  | LOW
  | MEDIUM
  | HIGH
  | VERY_HIGH
deriving DecidableEq, Repr

/-- Result record of the percentage ratio calculators (DTI, LTV, utilization):
`{ratio, percentage, risk_category}`. -/
structure RatioResult where
  ratio : ℚ
  percentage : ℚ
  risk_category : RiskCat
deriving DecidableEq, Repr

/-- Whether an embedded tool result is the `{"error": ...}` record. -/
def hasError {α : Type} (e : Except String α) : Bool :=
  match e with
  | .error _ => true
  | .ok _ => false

/-- The `risk_category` field of a ratio-calculator result, if it succeeded. -/
def riskCategoryOf (e : Except String RatioResult) : Option RiskCat :=
  match e with
  | .error _ => none
  | .ok r => some r.risk_category

/-- `compute_debt_to_income_ratio` from tools.py: DTI percentage with
thresholds 35/50. -/
def compute_debt_to_income_ratio (monthly_income total_monthly_debt : ℚ) :
    Except String RatioResult :=
  if monthly_income ≤ 0 then .error "Monthly income must be greater than zero"
  else if total_monthly_debt < 0 then .error "Total monthly debt cannot be negative"
  else
    let ratio := total_monthly_debt / monthly_income
    let percentage := ratio * 100
    let risk_category :=
      if percentage < 35 then RiskCat.LOW
      else if percentage ≤ 50 then RiskCat.MEDIUM
      else RiskCat.HIGH
    .ok { ratio := round4 ratio, percentage := round2 percentage,
          risk_category := risk_category }

/-- `compute_loan_to_value_ratio` from tools.py: LTV percentage with
thresholds 80/90. -/
def compute_loan_to_value_ratio (loan_amount property_value : ℚ) :
    Except String RatioResult :=
  if property_value ≤ 0 then .error "Property value must be greater than zero"
  else if loan_amount < 0 then .error "Loan amount cannot be negative"
  else
    let ratio := loan_amount / property_value
    let percentage := ratio * 100
    let risk_category :=
      if percentage < 80 then RiskCat.LOW
      else if percentage ≤ 90 then RiskCat.MEDIUM
      else RiskCat.HIGH
    .ok { ratio := round4 ratio, percentage := round2 percentage,
          risk_category := risk_category }

/-- `compute_credit_utilization_ratio` from tools.py: utilization percentage
with thresholds 30/50. -/
def compute_credit_utilization_ratio (credit_used credit_limit : ℚ) :
    Except String RatioResult :=
  if credit_limit ≤ 0 then .error "Credit limit must be greater than zero"
  else if credit_used < 0 then .error "Credit used cannot be negative"
  else
    let ratio := credit_used / credit_limit
    let percentage := ratio * 100
    let risk_category :=
      if percentage < 30 then RiskCat.LOW
      else if percentage ≤ 50 then RiskCat.MEDIUM
      else RiskCat.HIGH
    .ok { ratio := round4 ratio, percentage := round2 percentage,
          risk_category := risk_category }

/-- Result record of `compute_foir`. -/
structure FoirResult where
  ratio : ℚ
  percentage : ℚ
  total_obligations : ℚ
  remaining_income : ℚ
  risk_category : RiskCat
deriving DecidableEq, Repr

/-- `compute_foir` from tools.py: fixed-obligation-to-income percentage with
thresholds 40/55. -/
def compute_foir (monthly_income existing_emis proposed_emi other_obligations : ℚ) :
    Except String FoirResult :=
  if monthly_income ≤ 0 then .error "Monthly income must be greater than zero"
  else
    let total_obligations := existing_emis + proposed_emi + other_obligations
    if total_obligations < 0 then .error "Total obligations cannot be negative"
    else
      let ratio := total_obligations / monthly_income
      let percentage := ratio * 100
      let remaining_income := monthly_income - total_obligations
      let risk_category :=
        if percentage < 40 then RiskCat.LOW
        else if percentage ≤ 55 then RiskCat.MEDIUM
        else RiskCat.HIGH
      .ok { ratio := round4 ratio, percentage := round2 percentage,
            total_obligations := round2 total_obligations,
            remaining_income := round2 remaining_income,
            risk_category := risk_category }

/-- Result record of `compute_emi`. -/
structure EmiResult where
  emi : ℚ
  total_payment : ℚ
  total_interest : ℚ
  interest_to_principal_ratio : ℚ
  monthly_interest_rate : ℚ
deriving DecidableEq, Repr

/-- `compute_emi` from tools.py: equated monthly installment, with the
zero-interest special case. -/
def compute_emi (principal annual_interest_rate : ℚ) (tenure_months : ℤ) :
    Except String EmiResult :=
  if principal ≤ 0 then .error "Principal must be greater than zero"
  else if annual_interest_rate < 0 then .error "Interest rate cannot be negative"
  else if tenure_months ≤ 0 then .error "Tenure must be at least 1 month"
  else
    let monthly_rate := (annual_interest_rate / 100) / 12
    let emi :=
      if monthly_rate = 0 then principal / (tenure_months : ℚ)
      else principal * monthly_rate * ((1 + monthly_rate) ^ tenure_months.toNat) /
           (((1 + monthly_rate) ^ tenure_months.toNat) - 1)
    let total_payment := emi * (tenure_months : ℚ)
    let total_interest := total_payment - principal
    .ok { emi := round2 emi,
          total_payment := round2 total_payment,
          total_interest := round2 total_interest,
          interest_to_principal_ratio := round4 (total_interest / principal),
          monthly_interest_rate := round4 (monthly_rate * 100) }

/-- The `emi` field of a `compute_emi` result, if it succeeded. -/
def emiOf (e : Except String EmiResult) : Option ℚ :=
  match e with
  | .error _ => none
  | .ok r => some r.emi

/-- Result record of `compute_dscr`. -/
structure DscrResult where
  ratio : ℚ
  excess_income : ℚ
  coverage_percentage : ℚ
  risk_category : RiskCat
deriving DecidableEq, Repr

/-- `compute_dscr` from tools.py: debt service coverage ratio with
thresholds 1.5 / 1.0 on the ratio itself. -/
def compute_dscr (net_operating_income total_debt_service : ℚ) :
    Except String DscrResult :=
  if total_debt_service ≤ 0 then .error "Total debt service must be greater than zero"
  else
    let ratio := net_operating_income / total_debt_service
    let excess_income := net_operating_income - total_debt_service
    let risk_category :=
      if ratio > 1.5 then RiskCat.LOW
      else if ratio ≥ 1.0 then RiskCat.MEDIUM
      else RiskCat.HIGH
    .ok { ratio := round4 ratio,
          excess_income := round2 excess_income,
          coverage_percentage := round2 (ratio * 100),
          risk_category := risk_category }

/-- The per-factor breakdown of `assess_employment_stability`. -/
structure EmploymentFactors where
  employment_type_score : ℚ
  tenure_score : ℚ
  experience_score : ℚ
  stability_score : ℚ
deriving DecidableEq, Repr

/-- Result record of `assess_employment_stability`. -/
structure EmploymentResult where
  score : ℚ
  risk_category : RiskCat
  factors : EmploymentFactors
deriving DecidableEq, Repr

/-- The employment-type base score: `employment_scores.get(employment_type, 10)`
in tools.py (a lookup defaulting to 10 for unrecognized types). -/
def employmentBaseScore (employment_type : String) : ℚ :=
  if employment_type = "salaried" then 30
  else if employment_type = "business_owner" then 25
  else if employment_type = "self_employed" then 20
  else if employment_type = "freelancer" then 15
  else if employment_type = "unemployed" then 0
  else 10

/-- `assess_employment_stability` from tools.py.  The Python code performs no
validation of its arguments: there is no error return site, so the embedding
always produces `.ok`. -/
def assess_employment_stability (employment_type : String)
    (years_in_current_job total_work_experience : ℚ)
    (job_changes_last_5_years : ℤ) : Except String EmploymentResult :=
  let base_score := employmentBaseScore employment_type
  let tenure_score := min (years_in_current_job * 6) 30
  let experience_score := min (total_work_experience * 2) 20
  let stability_score : ℚ :=
    if job_changes_last_5_years = 0 then 20
    else if job_changes_last_5_years = 1 then 15
    else if job_changes_last_5_years = 2 then 10
    else if job_changes_last_5_years = 3 then 5
    else 0
  let total_score := base_score + tenure_score + experience_score + stability_score
  let total_score := min total_score 100
  let risk_category :=
    if total_score ≥ 70 then RiskCat.LOW
    else if total_score ≥ 40 then RiskCat.MEDIUM
    else RiskCat.HIGH
  .ok { score := round2 total_score,
        risk_category := risk_category,
        factors := { employment_type_score := base_score,
                     tenure_score := round2 tenure_score,
                     experience_score := round2 experience_score,
                     stability_score := stability_score } }

/-- Result of `compute_payment_history_score`: the three return sites of the
Python function.  `noRecords` is the zero-record fallback, which carries the
`error` key together with `score` 50 and `risk_category` MEDIUM. -/
inductive PayHistResult
  | invalid (error : String)
  | noRecords (error : String) (score : ℚ) (risk_category : RiskCat)
  | ok (score : ℚ) (on_time_rate : ℚ) (total_payment_records : ℤ)
       (penalty_points : ℤ) (risk_category : RiskCat)
deriving DecidableEq, Repr

/-- Whether a `compute_payment_history_score` result carries the `error` key. -/
def PayHistResult.hasErrorKey : PayHistResult → Bool
  | .invalid _ => true
  | .noRecords _ _ _ => true
  | .ok _ _ _ _ _ => false

/-- The `score` field of a `compute_payment_history_score` result. -/
def PayHistResult.scoreField : PayHistResult → Option ℚ
  | .invalid _ => none
  | .noRecords _ s _ => some s
  | .ok s _ _ _ _ => some s

/-- The `on_time_rate` field of a `compute_payment_history_score` result. -/
def PayHistResult.onTimeRateField : PayHistResult → Option ℚ
  | .invalid _ => none
  | .noRecords _ _ _ => none
  | .ok _ r _ _ _ => some r

/-- `compute_payment_history_score` from tools.py.  Note that
`total_payment_records` sums the on-time and late counts but not `defaults`,
exactly as in the source. -/
def compute_payment_history_score (total_accounts on_time_payments
    late_payments_30_days late_payments_60_days late_payments_90_plus_days
    defaults : ℤ) : PayHistResult :=
  if total_accounts ≤ 0 then .invalid "Total accounts must be at least 1"
  else
    let total_payment_records := on_time_payments + late_payments_30_days +
                                 late_payments_60_days + late_payments_90_plus_days
    if total_payment_records = 0 then
      .noRecords "No payment records available" 50 RiskCat.MEDIUM
    else
      let on_time_rate : ℚ := ((on_time_payments : ℚ) / (total_payment_records : ℚ)) * 100
      let base_score := on_time_rate
      let penalty := late_payments_30_days * 2 + late_payments_60_days * 5 +
                     late_payments_90_plus_days * 10 + defaults * 25
      let final_score := max 0 (base_score - (penalty : ℚ))
      let final_score := min 100 final_score
      let risk_category :=
        if final_score ≥ 80 then RiskCat.LOW
        else if final_score ≥ 50 then RiskCat.MEDIUM
        else RiskCat.HIGH
      .ok (round2 final_score) (round2 on_time_rate) total_payment_records
          penalty risk_category

/-- Ratings produced by `assess_credit_score`. -/
inductive Rating
  | EXCELLENT
  | GOOD
  | FAIR
  | POOR
  | VERY_POOR
deriving DecidableEq, Repr

/-- Result record of `assess_credit_score`. -/
structure CreditRating where
  score : ℤ
  rating : Rating
  risk_category : RiskCat
  recommendation : String
deriving DecidableEq, Repr

/-- `assess_credit_score` from tools.py: banded lookup over [300, 900],
rejecting out-of-range scores. -/
def assess_credit_score (credit_score : ℤ) : Except String CreditRating :=
  if credit_score < 300 ∨ credit_score > 900 then
    .error "Credit score should be between 300 and 900"
  else if credit_score ≥ 750 then
    .ok { score := credit_score, rating := Rating.EXCELLENT, risk_category := RiskCat.LOW,
          recommendation := "Eligible for best rates and terms. High approval probability." }
  else if credit_score ≥ 700 then
    .ok { score := credit_score, rating := Rating.GOOD, risk_category := RiskCat.LOW,
          recommendation := "Favorable terms available. Standard processing." }
  else if credit_score ≥ 650 then
    .ok { score := credit_score, rating := Rating.FAIR, risk_category := RiskCat.MEDIUM,
          recommendation := "May qualify with higher interest rates. Additional documentation may help." }
  else if credit_score ≥ 550 then
    .ok { score := credit_score, rating := Rating.POOR, risk_category := RiskCat.HIGH,
          recommendation := "Limited options. Consider secured loans or co-applicant." }
  else
    .ok { score := credit_score, rating := Rating.VERY_POOR, risk_category := RiskCat.HIGH,
          recommendation := "High rejection probability. Recommend credit repair before applying." }

/-- Result record of `compute_collateral_coverage_ratio`. -/
structure CcrResult where
  coverage_ratio : ℚ
  coverage_percentage : ℚ
  net_collateral_value : ℚ
  shortfall : ℚ
  risk_category : RiskCat
deriving DecidableEq, Repr

/-- `compute_collateral_coverage_ratio` from tools.py: discounted collateral
value over loan amount, with discount factor validated to lie in [0, 1). -/
def compute_collateral_coverage_ratio (collateral_value loan_amount
    liquidation_discount : ℚ) : Except String CcrResult :=
  if loan_amount ≤ 0 then .error "Loan amount must be greater than zero"
  else if collateral_value < 0 then .error "Collateral value cannot be negative"
  else if ¬(0 ≤ liquidation_discount ∧ liquidation_discount < 1) then
    .error "Liquidation discount must be between 0 and 1"
  else
    let net_collateral_value := collateral_value * (1 - liquidation_discount)
    let coverage_ratio := net_collateral_value / loan_amount
    let shortfall := if coverage_ratio < 1 then loan_amount - net_collateral_value else 0
    let risk_category :=
      if coverage_ratio > 1.5 then RiskCat.LOW
      else if coverage_ratio ≥ 1.0 then RiskCat.MEDIUM
      else RiskCat.HIGH
    .ok { coverage_ratio := round4 coverage_ratio,
          coverage_percentage := round2 (coverage_ratio * 100),
          net_collateral_value := round2 net_collateral_value,
          shortfall := round2 shortfall,
          risk_category := risk_category }

/-- A per-factor entry of `classify_risk_category`: `{status, points}`. -/
structure Assessment where
  status : String
  points : ℕ
deriving DecidableEq, Repr

/-- DTI banding of `classify_risk_category`. -/
def dtiAssessment (dti_percentage : ℚ) : Assessment :=
  if dti_percentage < 35 then { status := "GOOD", points := 0 }
  else if dti_percentage ≤ 50 then { status := "MODERATE", points := 1 }
  else { status := "POOR", points := 2 }

/-- LTV banding of `classify_risk_category`. -/
def ltvAssessment (ltv_percentage : ℚ) : Assessment :=
  if ltv_percentage < 80 then { status := "GOOD", points := 0 }
  else if ltv_percentage ≤ 90 then { status := "MODERATE", points := 1 }
  else { status := "POOR", points := 2 }

/-- Credit-score banding of `classify_risk_category`. -/
def creditScoreAssessment (credit_score : ℤ) : Assessment :=
  if credit_score ≥ 750 then { status := "EXCELLENT", points := 0 }
  else if credit_score ≥ 700 then { status := "GOOD", points := 0 }
  else if credit_score ≥ 650 then { status := "MODERATE", points := 1 }
  else { status := "POOR", points := 2 }

/-- Employment-stability banding of `classify_risk_category`. -/
def employmentAssessment (employment_stability_score : ℚ) : Assessment :=
  if employment_stability_score ≥ 70 then { status := "STABLE", points := 0 }
  else if employment_stability_score ≥ 40 then { status := "MODERATE", points := 1 }
  else { status := "UNSTABLE", points := 2 }

/-- Payment-history banding of `classify_risk_category`. -/
def paymentHistoryAssessment (payment_history_score : ℚ) : Assessment :=
  if payment_history_score ≥ 80 then { status := "EXCELLENT", points := 0 }
  else if payment_history_score ≥ 50 then { status := "MODERATE", points := 1 }
  else { status := "POOR", points := 2 }

/-- The `individual_assessments` mapping of `classify_risk_category`. -/
structure Assessments where
  dti : Assessment
  ltv : Assessment
  credit_score : Assessment
  employment : Assessment
  payment_history : Assessment
deriving DecidableEq, Repr

/-- Result record of `classify_risk_category`. -/
structure ClassifyResult where
  overall_category : RiskCat
  total_risk_points : ℕ
  max_risk_points : ℕ
  individual_assessments : Assessments
  recommendation : String
deriving DecidableEq, Repr

/-- `classify_risk_category` from tools.py: sums the five factors' 0/1/2 risk
points (accumulated by the source's if-chains, represented here by the five
assessment functions) and maps the total to an overall category.  The Python
function has no error return site, so the embedding always produces `.ok`. -/
def classify_risk_category (dti_percentage ltv_percentage : ℚ) (credit_score : ℤ)
    (employment_stability_score payment_history_score : ℚ) :
    Except String ClassifyResult :=
  let a1 := dtiAssessment dti_percentage
  let a2 := ltvAssessment ltv_percentage
  let a3 := creditScoreAssessment credit_score
  let a4 := employmentAssessment employment_stability_score
  let a5 := paymentHistoryAssessment payment_history_score
  let risk_points := a1.points + a2.points + a3.points + a4.points + a5.points
  let overall_category :=
    if risk_points = 0 then RiskCat.LOW
    else if risk_points ≤ 2 then RiskCat.MEDIUM
    else if risk_points ≤ 5 then RiskCat.HIGH
    else RiskCat.VERY_HIGH
  let recommendation :=
    if risk_points = 0 then "Approve with standard terms. Strong credit profile."
    else if risk_points ≤ 2 then "Approve with enhanced due diligence. Consider moderate rate adjustment."
    else if risk_points ≤ 5 then "Additional mitigation required (collateral, guarantor). Higher risk pricing."
    else "Consider rejection or significant risk mitigation measures."
  .ok { overall_category := overall_category,
        total_risk_points := risk_points,
        max_risk_points := 10,
        individual_assessments :=
          { dti := a1, ltv := a2, credit_score := a3, employment := a4,
            payment_history := a5 },
        recommendation := recommendation }

/-- Letter grades of `compute_total_risk_score`. -/
inductive Grade
  | A
  | B
  | C
  | D
  | E
deriving DecidableEq, Repr

/-- A `{score, weight}` entry of `component_scores`. -/
structure Component where
  score : ℚ
  weight : ℚ
deriving DecidableEq, Repr

/-- The `component_scores` mapping of `compute_total_risk_score`. -/
structure Components where
  credit_score : Component
  payment_history : Component
  dti : Component
  ltv : Component
  employment_stability : Component
  credit_utilization : Component
  foir : Component
deriving DecidableEq, Repr

/-- Result record of `compute_total_risk_score`. -/
structure TotalRiskResult where
  total_score : ℚ
  grade : Grade
  component_scores : Components
  underwriting_recommendation : String
deriving DecidableEq, Repr

/-- The credit-score normalization of `compute_total_risk_score`:
`((credit_score - 300) / 600) * 100`. -/
def credit_score_normalized (credit_score : ℤ) : ℚ :=
  (((credit_score : ℚ) - 300) / 600) * 100

/-- The DTI goodness score of `compute_total_risk_score`:
`max(0, 100 - dti_percentage * 1.5)`. -/
def dtiScore (dti_percentage : ℚ) : ℚ := max 0 (100 - dti_percentage * 1.5)

/-- The LTV goodness score of `compute_total_risk_score`:
`max(0, 100 - ltv_percentage * 0.9)`. -/
def ltvScore (ltv_percentage : ℚ) : ℚ := max 0 (100 - ltv_percentage * 0.9)

/-- The utilization goodness score of `compute_total_risk_score`:
`max(0, 100 - credit_utilization_percentage * 1.5)`. -/
def utilizationScore (credit_utilization_percentage : ℚ) : ℚ :=
  max 0 (100 - credit_utilization_percentage * 1.5)

/-- The FOIR goodness score of `compute_total_risk_score`:
`max(0, 100 - foir_percentage * 1.3)`. -/
def foirScore (foir_percentage : ℚ) : ℚ := max 0 (100 - foir_percentage * 1.3)

/-- `compute_total_risk_score` from tools.py: the weighted composite score,
clamped to [0, 100], with letter grade and recommendation.  In Python,
`credit_utilization_percentage` defaults to 25.0 and `foir_percentage` to
40.0; here both are passed explicitly.  The Python function has no error
return site, so the embedding always produces `.ok`. -/
def compute_total_risk_score (dti_percentage ltv_percentage : ℚ) (credit_score : ℤ)
    (employment_stability_score payment_history_score : ℚ)
    (credit_utilization_percentage foir_percentage : ℚ) :
    Except String TotalRiskResult :=
  let csn := credit_score_normalized credit_score
  let dti_score := dtiScore dti_percentage
  let ltv_score := ltvScore ltv_percentage
  let utilization_score := utilizationScore credit_utilization_percentage
  let foir_score := foirScore foir_percentage
  let total_score :=
    csn * 0.25 +
    payment_history_score * 0.20 +
    dti_score * 0.15 +
    ltv_score * 0.15 +
    employment_stability_score * 0.10 +
    utilization_score * 0.10 +
    foir_score * 0.05
  let total_score := min 100 (max 0 total_score)
  let grade :=
    if total_score ≥ 85 then Grade.A
    else if total_score ≥ 70 then Grade.B
    else if total_score ≥ 55 then Grade.C
    else if total_score ≥ 40 then Grade.D
    else Grade.E
  let recommendation :=
    if total_score ≥ 85 then "APPROVE - Excellent risk profile. Offer best available rates."
    else if total_score ≥ 70 then "APPROVE - Good risk profile. Standard terms apply."
    else if total_score ≥ 55 then "CONDITIONAL APPROVE - Moderate risk. Consider risk-based pricing."
    else if total_score ≥ 40 then "REVIEW - High risk. Requires senior approval and mitigation."
    else "DECLINE - Very high risk. Does not meet underwriting criteria."
  .ok { total_score := round2 total_score,
        grade := grade,
        component_scores :=
          { credit_score := { score := round2 csn, weight := 0.25 },
            payment_history := { score := round2 payment_history_score, weight := 0.20 },
            dti := { score := round2 dti_score, weight := 0.15 },
            ltv := { score := round2 ltv_score, weight := 0.15 },
            employment_stability := { score := round2 employment_stability_score, weight := 0.10 },
            credit_utilization := { score := round2 utilization_score, weight := 0.10 },
            foir := { score := round2 foir_score, weight := 0.05 } },
        underwriting_recommendation := recommendation }

/-- The `total_score` field of a `compute_total_risk_score` result, if it
succeeded. -/
def totalScoreOf (e : Except String TotalRiskResult) : Option ℚ :=
  match e with
  | .error _ => none
  | .ok r => some r.total_score

/-- The `total_score` field of a `compute_total_risk_score` result (0 in the
unreachable error case; the function has no error return site). -/
def totalScoreD (e : Except String TotalRiskResult) : ℚ :=
  match e with
  | .error _ => 0
  | .ok r => r.total_score

/-- The `total_risk_points` field of a `classify_risk_category` result (0 in
the unreachable error case; the function has no error return site). -/
def riskPointsD (e : Except String ClassifyResult) : ℕ :=
  match e with
  | .error _ => 0
  | .ok r => r.total_risk_points

/-- The `overall_category` field of a `classify_risk_category` result (LOW in
the unreachable error case; the function has no error return site). -/
def overallCategoryD (e : Except String ClassifyResult) : RiskCat :=
  match e with
  | .error _ => RiskCat.LOW
  | .ok r => r.overall_category

/-- The `factors.tenure_score` field of an `assess_employment_stability`
result (0 in the unreachable error case; the function has no error
return site). -/
def tenureScoreD (e : Except String EmploymentResult) : ℚ :=
  match e with
  | .error _ => 0
  | .ok r => r.factors.tenure_score

/-- The `factors.experience_score` field of an `assess_employment_stability`
result (0 in the unreachable error case; the function has no error
return site). -/
def experienceScoreD (e : Except String EmploymentResult) : ℚ :=
  match e with
  | .error _ => 0
  | .ok r => r.factors.experience_score

/- ------------------------------------------------------------------ -/
/- Helper lemmas about two-decimal rounding.                           -/
/- ------------------------------------------------------------------ -/

theorem round2_mono {x y : ℚ} (h : x ≤ y) : round2 x ≤ round2 y := by
  unfold round2
  have hr : round (100 * x) ≤ round (100 * y) := by
    rw [round_eq, round_eq]
    exact Int.floor_le_floor (by linarith)
  have hc : ((round (100 * x) : ℤ) : ℚ) ≤ ((round (100 * y) : ℤ) : ℚ) :=
    Int.cast_le.mpr hr
  linarith

theorem round2_zero : round2 0 = 0 := by
  unfold round2
  norm_num

theorem round2_hundred : round2 100 = 100 := by
  unfold round2
  norm_num [round_eq]

/-- Two-decimal rounding commutes with clamping to [0, 100]. -/
theorem round2_clamp (x : ℚ) :
    round2 (min 100 (max 0 x)) = min 100 (max 0 (round2 x)) := by
  rcases le_total x 0 with h | h
  · have h1 : max (0 : ℚ) x = 0 := max_eq_left h
    have h2 : round2 x ≤ 0 := round2_zero ▸ round2_mono h
    rw [h1, min_eq_right (by norm_num : (0:ℚ) ≤ 100), round2_zero,
        max_eq_left h2, min_eq_right (by norm_num : (0:ℚ) ≤ 100)]
  · have h1 : max (0 : ℚ) x = x := max_eq_right h
    have h2 : (0 : ℚ) ≤ round2 x := round2_zero ▸ round2_mono h
    rcases le_total x 100 with h3 | h3
    · have h4 : round2 x ≤ 100 := round2_hundred ▸ round2_mono h3
      rw [h1, min_eq_right h3, max_eq_right h2, min_eq_right h4]
    · have h4 : (100 : ℚ) ≤ round2 x := round2_hundred ▸ round2_mono h3
      rw [h1, min_eq_left h3, round2_hundred, max_eq_right h2, min_eq_left h4]

/-- Rounding a value whose hundredfold is an integer is exact. -/
theorem round2_exact {x : ℚ} {k : ℤ} (h : 100 * x = (k : ℚ)) : round2 x = x := by
  unfold round2
  rw [h, round_intCast]
  field_simp
  linarith

/-- Two-decimal rounding commutes with subtracting an integer. -/
theorem round2_sub_int (x : ℚ) (p : ℤ) : round2 (x - (p : ℚ)) = round2 x - (p : ℚ) := by
  unfold round2
  have h : 100 * (x - (p : ℚ)) = 100 * x - ((100 * p : ℤ) : ℚ) := by
    push_cast
    ring
  rw [h, round_sub_int]
  push_cast
  ring

/-- Clamp-monotonicity composed with rounding, as used by the composite
scorer. -/
theorem round2_clamp_mono {x y : ℚ} (h : x ≤ y) :
    round2 (min 100 (max 0 x)) ≤ round2 (min 100 (max 0 y)) :=
  round2_mono (min_le_min (le_refl _) (max_le_max (le_refl _) h))

/- ------------------------------------------------------------------ -/
/- Claim theorems.                                                     -/
/- ------------------------------------------------------------------ -/

/-- Claim C1: for every input to `compute_total_risk_score`, the returned
`total_score` lies in [0, 100]; holding all other arguments fixed, it is
monotonically non-decreasing in `credit_score`, `payment_history_score` and
`employment_stability_score`, and monotonically non-increasing in
`dti_percentage`, `ltv_percentage`, `credit_utilization_percentage` and
`foir_percentage`. -/
theorem total_risk_score_range_and_monotone :
    ∀ (dti ltv : ℚ) (cs : ℤ) (emp ph util foir : ℚ),
      (0 ≤ totalScoreD (compute_total_risk_score dti ltv cs emp ph util foir) ∧
        totalScoreD (compute_total_risk_score dti ltv cs emp ph util foir) ≤ 100) ∧
      (∀ cs' : ℤ, cs ≤ cs' →
        totalScoreD (compute_total_risk_score dti ltv cs emp ph util foir) ≤
        totalScoreD (compute_total_risk_score dti ltv cs' emp ph util foir)) ∧
      (∀ ph' : ℚ, ph ≤ ph' →
        totalScoreD (compute_total_risk_score dti ltv cs emp ph util foir) ≤
        totalScoreD (compute_total_risk_score dti ltv cs emp ph' util foir)) ∧
      (∀ emp' : ℚ, emp ≤ emp' →
        totalScoreD (compute_total_risk_score dti ltv cs emp ph util foir) ≤
        totalScoreD (compute_total_risk_score dti ltv cs emp' ph util foir)) ∧
      (∀ dti' : ℚ, dti ≤ dti' →
        totalScoreD (compute_total_risk_score dti' ltv cs emp ph util foir) ≤
        totalScoreD (compute_total_risk_score dti ltv cs emp ph util foir)) ∧
      (∀ ltv' : ℚ, ltv ≤ ltv' →
        totalScoreD (compute_total_risk_score dti ltv' cs emp ph util foir) ≤
        totalScoreD (compute_total_risk_score dti ltv cs emp ph util foir)) ∧
      (∀ util' : ℚ, util ≤ util' →
        totalScoreD (compute_total_risk_score dti ltv cs emp ph util' foir) ≤
        totalScoreD (compute_total_risk_score dti ltv cs emp ph util foir)) ∧
      (∀ foir' : ℚ, foir ≤ foir' →
        totalScoreD (compute_total_risk_score dti ltv cs emp ph util foir') ≤
        totalScoreD (compute_total_risk_score dti ltv cs emp ph util foir)) := by
  intro dti ltv cs emp ph util foir
  simp only [compute_total_risk_score, totalScoreD]
  refine ⟨⟨?_, ?_⟩, ?_, ?_, ?_, ?_, ?_, ?_, ?_⟩
  · rw [round2_clamp]
    exact le_min (by norm_num) (le_max_left _ _)
  · rw [round2_clamp]
    exact min_le_left _ _
  · intro cs' h
    apply round2_clamp_mono
    have hc : credit_score_normalized cs ≤ credit_score_normalized cs' := by
      unfold credit_score_normalized
      have : (cs : ℚ) ≤ (cs' : ℚ) := Int.cast_le.mpr h
      linarith
    linarith
  · intro ph' h
    apply round2_clamp_mono
    linarith
  · intro emp' h
    apply round2_clamp_mono
    linarith
  · intro dti' h
    apply round2_clamp_mono
    have hc : dtiScore dti' ≤ dtiScore dti := by
      unfold dtiScore
      exact max_le_max (le_refl _) (by linarith)
    linarith
  · intro ltv' h
    apply round2_clamp_mono
    have hc : ltvScore ltv' ≤ ltvScore ltv := by
      unfold ltvScore
      exact max_le_max (le_refl _) (by linarith)
    linarith
  · intro util' h
    apply round2_clamp_mono
    have hc : utilizationScore util' ≤ utilizationScore util := by
      unfold utilizationScore
      exact max_le_max (le_refl _) (by linarith)
    linarith
  · intro foir' h
    apply round2_clamp_mono
    have hc : foirScore foir' ≤ foirScore foir := by
      unfold foirScore
      exact max_le_max (le_refl _) (by linarith)
    linarith

/-- Witness for C1: the range and each monotonicity conjunct instantiated at
concrete inputs, with every hypothesis discharged. -/
theorem total_risk_score_range_and_monotone_witness :
    (0 ≤ totalScoreD (compute_total_risk_score 35 80 720 75 85 25 40) ∧
      totalScoreD (compute_total_risk_score 35 80 720 75 85 25 40) ≤ 100) ∧
    totalScoreD (compute_total_risk_score 35 80 700 75 85 25 40) ≤
      totalScoreD (compute_total_risk_score 35 80 750 75 85 25 40) ∧
    totalScoreD (compute_total_risk_score 35 80 700 75 85 25 40) ≤
      totalScoreD (compute_total_risk_score 35 80 700 75 95 25 40) ∧
    totalScoreD (compute_total_risk_score 35 80 700 75 85 25 40) ≤
      totalScoreD (compute_total_risk_score 35 80 700 80 85 25 40) ∧
    totalScoreD (compute_total_risk_score 45 80 700 75 85 25 40) ≤
      totalScoreD (compute_total_risk_score 35 80 700 75 85 25 40) ∧
    totalScoreD (compute_total_risk_score 35 90 700 75 85 25 40) ≤
      totalScoreD (compute_total_risk_score 35 80 700 75 85 25 40) ∧
    totalScoreD (compute_total_risk_score 35 80 700 75 85 30 40) ≤
      totalScoreD (compute_total_risk_score 35 80 700 75 85 25 40) ∧
    totalScoreD (compute_total_risk_score 35 80 700 75 85 25 50) ≤
      totalScoreD (compute_total_risk_score 35 80 700 75 85 25 40) :=
  ⟨(total_risk_score_range_and_monotone 35 80 720 75 85 25 40).1,
    (total_risk_score_range_and_monotone 35 80 700 75 85 25 40).2.1 750 (by norm_num),
    (total_risk_score_range_and_monotone 35 80 700 75 85 25 40).2.2.1 95 (by norm_num),
    (total_risk_score_range_and_monotone 35 80 700 75 85 25 40).2.2.2.1 80 (by norm_num),
    (total_risk_score_range_and_monotone 35 80 700 75 85 25 40).2.2.2.2.1 45 (by norm_num),
    (total_risk_score_range_and_monotone 35 80 700 75 85 25 40).2.2.2.2.2.1 90 (by norm_num),
    (total_risk_score_range_and_monotone 35 80 700 75 85 25 40).2.2.2.2.2.2.1 30 (by norm_num),
    (total_risk_score_range_and_monotone 35 80 700 75 85 25 40).2.2.2.2.2.2.2 50 (by norm_num)⟩

/-- Counterexample to C2 as stated: an input whose DTI percentage is exactly
35.00 yields risk_category MEDIUM, not LOW (the code's `< 35` boundary makes
35.00 fall into the `<= 50` branch). -/
theorem dti_boundary_counterexample :
    riskCategoryOf (compute_debt_to_income_ratio 100 35) = some RiskCat.MEDIUM ∧
    riskCategoryOf (compute_debt_to_income_ratio 100 35) ≠ some RiskCat.LOW := by
  have h : riskCategoryOf (compute_debt_to_income_ratio 100 35) = some RiskCat.MEDIUM := by
    simp only [compute_debt_to_income_ratio, riskCategoryOf]
    norm_num
  exact ⟨h, by rw [h]; simp⟩

/-- Claim C2 (amended): for `compute_debt_to_income_ratio` with
`monthly_income > 0` and `total_monthly_debt >= 0`, percentages below 35 yield
LOW, percentages in [35, 50] yield MEDIUM (so 35.00 is MEDIUM, not LOW), and
percentages above 50 yield HIGH; in particular 34.99/35.00/35.01 yield
LOW/MEDIUM/MEDIUM and 49.99/50.00/50.01 yield MEDIUM/MEDIUM/HIGH. -/
theorem dti_boundary_amended (monthly_income total_monthly_debt : ℚ)
    (hmi : 0 < monthly_income) (hd : 0 ≤ total_monthly_debt) :
    (total_monthly_debt / monthly_income * 100 < 35 →
      riskCategoryOf (compute_debt_to_income_ratio monthly_income total_monthly_debt) =
        some RiskCat.LOW) ∧
    (35 ≤ total_monthly_debt / monthly_income * 100 ∧
        total_monthly_debt / monthly_income * 100 ≤ 50 →
      riskCategoryOf (compute_debt_to_income_ratio monthly_income total_monthly_debt) =
        some RiskCat.MEDIUM) ∧
    (50 < total_monthly_debt / monthly_income * 100 →
      riskCategoryOf (compute_debt_to_income_ratio monthly_income total_monthly_debt) =
        some RiskCat.HIGH) := by
  simp only [compute_debt_to_income_ratio, riskCategoryOf]
  rw [if_neg (not_le.mpr hmi), if_neg (not_lt.mpr hd)]
  refine ⟨?_, ?_, ?_⟩
  · intro hp
    simp only [if_pos hp]
  · intro hp
    simp only [if_neg (not_lt.mpr hp.1), if_pos hp.2]
  · intro hp
    simp only [if_neg (not_lt.mpr (by linarith : (35:ℚ) ≤ total_monthly_debt / monthly_income * 100)),
      if_neg (not_le.mpr hp)]

/-- Witness for the amended C2 at the six boundary percentages
34.99 / 35.00 / 35.01 / 49.99 / 50.00 / 50.01 over income 10000. -/
theorem dti_boundary_amended_witness :
    riskCategoryOf (compute_debt_to_income_ratio 10000 3499) = some RiskCat.LOW ∧
    riskCategoryOf (compute_debt_to_income_ratio 10000 3500) = some RiskCat.MEDIUM ∧
    riskCategoryOf (compute_debt_to_income_ratio 10000 3501) = some RiskCat.MEDIUM ∧
    riskCategoryOf (compute_debt_to_income_ratio 10000 4999) = some RiskCat.MEDIUM ∧
    riskCategoryOf (compute_debt_to_income_ratio 10000 5000) = some RiskCat.MEDIUM ∧
    riskCategoryOf (compute_debt_to_income_ratio 10000 5001) = some RiskCat.HIGH :=
  ⟨(dti_boundary_amended 10000 3499 (by norm_num) (by norm_num)).1 (by norm_num),
    (dti_boundary_amended 10000 3500 (by norm_num) (by norm_num)).2.1 ⟨by norm_num, by norm_num⟩,
    (dti_boundary_amended 10000 3501 (by norm_num) (by norm_num)).2.1 ⟨by norm_num, by norm_num⟩,
    (dti_boundary_amended 10000 4999 (by norm_num) (by norm_num)).2.1 ⟨by norm_num, by norm_num⟩,
    (dti_boundary_amended 10000 5000 (by norm_num) (by norm_num)).2.1 ⟨by norm_num, by norm_num⟩,
    (dti_boundary_amended 10000 5001 (by norm_num) (by norm_num)).2.2 (by norm_num)⟩

theorem dtiAssessment_points_le (x : ℚ) : (dtiAssessment x).points ≤ 2 := by
  unfold dtiAssessment
  split_ifs <;> simp

theorem ltvAssessment_points_le (x : ℚ) : (ltvAssessment x).points ≤ 2 := by
  unfold ltvAssessment
  split_ifs <;> simp

theorem creditScoreAssessment_points_le (x : ℤ) : (creditScoreAssessment x).points ≤ 2 := by
  unfold creditScoreAssessment
  split_ifs <;> simp

theorem employmentAssessment_points_le (x : ℚ) : (employmentAssessment x).points ≤ 2 := by
  unfold employmentAssessment
  split_ifs <;> simp

theorem paymentHistoryAssessment_points_le (x : ℚ) : (paymentHistoryAssessment x).points ≤ 2 := by
  unfold paymentHistoryAssessment
  split_ifs <;> simp

/-- Claim C3: `classify_risk_category` returns `total_risk_points` equal to
the sum of the five per-factor point assignments, each of which is at most 2
(so the total is in [0, 10]), and maps the total to the overall category as
0 → LOW, 1–2 → MEDIUM, 3–5 → HIGH, 6–10 → VERY_HIGH. -/
theorem classify_risk_points_sum_and_bands :
    ∀ (dti ltv : ℚ) (cs : ℤ) (emp ph : ℚ),
      riskPointsD (classify_risk_category dti ltv cs emp ph) =
        (dtiAssessment dti).points + (ltvAssessment ltv).points +
        (creditScoreAssessment cs).points + (employmentAssessment emp).points +
        (paymentHistoryAssessment ph).points ∧
      (dtiAssessment dti).points ≤ 2 ∧ (ltvAssessment ltv).points ≤ 2 ∧
      (creditScoreAssessment cs).points ≤ 2 ∧ (employmentAssessment emp).points ≤ 2 ∧
      (paymentHistoryAssessment ph).points ≤ 2 ∧
      riskPointsD (classify_risk_category dti ltv cs emp ph) ≤ 10 ∧
      (riskPointsD (classify_risk_category dti ltv cs emp ph) = 0 →
        overallCategoryD (classify_risk_category dti ltv cs emp ph) = RiskCat.LOW) ∧
      (1 ≤ riskPointsD (classify_risk_category dti ltv cs emp ph) ∧
          riskPointsD (classify_risk_category dti ltv cs emp ph) ≤ 2 →
        overallCategoryD (classify_risk_category dti ltv cs emp ph) = RiskCat.MEDIUM) ∧
      (3 ≤ riskPointsD (classify_risk_category dti ltv cs emp ph) ∧
          riskPointsD (classify_risk_category dti ltv cs emp ph) ≤ 5 →
        overallCategoryD (classify_risk_category dti ltv cs emp ph) = RiskCat.HIGH) ∧
      (6 ≤ riskPointsD (classify_risk_category dti ltv cs emp ph) →
        overallCategoryD (classify_risk_category dti ltv cs emp ph) = RiskCat.VERY_HIGH) := by
  intro dti ltv cs emp ph
  have h1 := dtiAssessment_points_le dti
  have h2 := ltvAssessment_points_le ltv
  have h3 := creditScoreAssessment_points_le cs
  have h4 := employmentAssessment_points_le emp
  have h5 := paymentHistoryAssessment_points_le ph
  simp only [classify_risk_category, riskPointsD, overallCategoryD]
  refine ⟨trivial, h1, h2, h3, h4, h5, by omega, ?_, ?_, ?_, ?_⟩
  · intro h
    rw [if_pos h]
  · intro h
    rw [if_neg (by omega), if_pos h.2]
  · intro h
    rw [if_neg (by omega), if_neg (by omega), if_pos h.2]
  · intro h
    rw [if_neg (by omega), if_neg (by omega), if_neg (by omega)]

/-- Witness for C3: at DTI 35 (1 point), LTV 80 (1 point), credit 720, employment 75 and
payment history 85 (0 points each) the total is 2 and the category is MEDIUM. -/
theorem classify_risk_points_sum_and_bands_witness :
    riskPointsD (classify_risk_category 35 80 720 75 85) = 2 ∧
    overallCategoryD (classify_risk_category 35 80 720 75 85) = RiskCat.MEDIUM := by
  have h := classify_risk_points_sum_and_bands 35 80 720 75 85
  have hp : riskPointsD (classify_risk_category 35 80 720 75 85) = 2 := by
    rw [h.1]
    norm_num [dtiAssessment, ltvAssessment, creditScoreAssessment, employmentAssessment,
      paymentHistoryAssessment]
  exact ⟨hp, h.2.2.2.2.2.2.2.2.1 ⟨by omega, by omega⟩⟩

/-- Counterexample to C4 as stated: with `total_accounts = 1` and all payment
counts zero, the returned record does carry the `error` key (the fallback note
is stored under `error`), so under the `{error: string}` protocol it is an
error record. -/
theorem payment_history_zero_records_counterexample :
    (compute_payment_history_score 1 0 0 0 0 0).hasErrorKey = true ∧
    (compute_payment_history_score 1 0 0 0 0 0).scoreField = some 50 := by
  constructor <;> rfl

/-- Claim C4 (amended): with `total_accounts >= 1` and a zero sum of
payment-record counts, `compute_payment_history_score` returns the fallback
record with score 50 and risk_category MEDIUM — but that record also contains
the `error` field "No payment records available", so callers checking the
error key see an error record. -/
theorem payment_history_zero_records_amended :
    ∀ ta ot l3 l6 l9 d : ℤ, 1 ≤ ta →
      ot + l3 + l6 + l9 = 0 →
      compute_payment_history_score ta ot l3 l6 l9 d =
        PayHistResult.noRecords "No payment records available" 50 RiskCat.MEDIUM ∧
      (compute_payment_history_score ta ot l3 l6 l9 d).hasErrorKey = true := by
  intro ta ot l3 l6 l9 d hta hsum
  have h : compute_payment_history_score ta ot l3 l6 l9 d =
      PayHistResult.noRecords "No payment records available" 50 RiskCat.MEDIUM := by
    unfold compute_payment_history_score
    rw [if_neg (by omega), if_pos hsum]
  exact ⟨h, by rw [h]; rfl⟩

/-- Witness for the amended C4 at `total_accounts = 3` and all counts zero. -/
theorem payment_history_zero_records_amended_witness :
    compute_payment_history_score 3 0 0 0 0 0 =
      PayHistResult.noRecords "No payment records available" 50 RiskCat.MEDIUM ∧
    (compute_payment_history_score 3 0 0 0 0 0).hasErrorKey = true :=
  payment_history_zero_records_amended 3 0 0 0 0 0 (by norm_num) (by norm_num)

/-- Claim C5: with `total_accounts >= 1` and a nonzero sum of payment-record
counts, the returned `on_time_rate` is `on_time / (sum of counts) * 100` and
the returned `score` is `clamp(on_time_rate - penalty, 0, 100)` with
`penalty = 2*late30 + 5*late60 + 10*late90plus + 25*defaults`, both up to the
function's two-decimal output rounding; the clamp invariant holds exactly
between the returned fields. -/
theorem payment_history_score_formula :
    ∀ ta ot l3 l6 l9 d : ℤ, 1 ≤ ta →
      ot + l3 + l6 + l9 ≠ 0 →
      (compute_payment_history_score ta ot l3 l6 l9 d).onTimeRateField =
        some (round2 ((ot : ℚ) / ((ot + l3 + l6 + l9 : ℤ) : ℚ) * 100)) ∧
      (compute_payment_history_score ta ot l3 l6 l9 d).scoreField =
        some (round2 (min 100 (max 0 ((ot : ℚ) / ((ot + l3 + l6 + l9 : ℤ) : ℚ) * 100 -
          ((l3 * 2 + l6 * 5 + l9 * 10 + d * 25 : ℤ) : ℚ))))) ∧
      (compute_payment_history_score ta ot l3 l6 l9 d).scoreField =
        some (min 100 (max 0 (round2 ((ot : ℚ) / ((ot + l3 + l6 + l9 : ℤ) : ℚ) * 100) -
          ((l3 * 2 + l6 * 5 + l9 * 10 + d * 25 : ℤ) : ℚ)))) := by
  intro ta ot l3 l6 l9 d hta hsum
  unfold compute_payment_history_score
  rw [if_neg (by omega), if_neg hsum]
  refine ⟨rfl, rfl, ?_⟩
  simp only [PayHistResult.scoreField]
  rw [round2_clamp, round2_sub_int]

/-- Witness for C5 at `compute_payment_history_score(5, 58, 2, 0, 0, 0)`:
on-time rate 58/60·100 rounds to 96.67 and the penalized score rounds
to 92.67. -/
theorem payment_history_score_formula_witness :
    (compute_payment_history_score 5 58 2 0 0 0).onTimeRateField = some (9667 / 100) ∧
    (compute_payment_history_score 5 58 2 0 0 0).scoreField = some (9267 / 100) := by
  have h := payment_history_score_formula 5 58 2 0 0 0 (by norm_num) (by norm_num)
  constructor
  · rw [h.1]
    norm_num [round2, round_eq]
  · rw [h.2.1]
    norm_num [round2, round_eq]

/-- Counterexample to C6 as stated: `compute_emi(1000, 0, 3)` returns
emi = 333.33, which is not exactly `1000/3`, because the returned field is
rounded to two decimal places. -/
theorem emi_zero_interest_counterexample :
    emiOf (compute_emi 1000 0 3) = some (33333 / 100) ∧
    emiOf (compute_emi 1000 0 3) ≠ some ((1000 : ℚ) / 3) := by
  have h : emiOf (compute_emi 1000 0 3) = some (33333 / 100) := by
    simp only [compute_emi, emiOf]
    norm_num [round2, round_eq]
  exact ⟨h, by rw [h]; norm_num⟩

/-- Claim C6 (amended): with `principal > 0`, zero interest rate and integer
`tenure_months >= 1`, the returned emi is `principal / tenure_months` rounded
to two decimal places, hence exactly `principal / tenure_months` whenever that
quotient has at most two decimal places. -/
theorem emi_zero_interest_amended :
    ∀ (principal : ℚ) (tenure_months : ℤ), 0 < principal → 0 < tenure_months →
      emiOf (compute_emi principal 0 tenure_months) =
        some (round2 (principal / (tenure_months : ℚ))) ∧
      (∀ k : ℤ, 100 * (principal / (tenure_months : ℚ)) = (k : ℚ) →
        emiOf (compute_emi principal 0 tenure_months) =
          some (principal / (tenure_months : ℚ))) := by
  intro principal tenure_months hp ht
  have h : emiOf (compute_emi principal 0 tenure_months) =
      some (round2 (principal / (tenure_months : ℚ))) := by
    unfold compute_emi
    rw [if_neg (not_le.mpr hp), if_neg (by norm_num), if_neg (by omega)]
    simp only [emiOf]
    norm_num
  refine ⟨h, ?_⟩
  intro k hk
  rw [h, round2_exact hk]

/-- Witness for the amended C6: `compute_emi(1200, 0, 12)` yields emi = 100,
exactly `1200/12`. -/
theorem emi_zero_interest_amended_witness :
    emiOf (compute_emi 1200 0 12) = some 100 := by
  have h := (emi_zero_interest_amended 1200 12 (by norm_num) (by norm_num)).2
    10000 (by norm_num)
  rw [h]
  norm_num

/-- Claim C7: each calculator with a positive-denominator precondition
(`compute_debt_to_income_ratio` on monthly_income, `compute_loan_to_value_ratio`
on property_value, `compute_credit_utilization_ratio` on credit_limit,
`compute_foir` on monthly_income, `compute_dscr` on total_debt_service,
`compute_collateral_coverage_ratio` on loan_amount) returns an error record
when that denominator is zero or negative; the error branch is taken before
any division, so no division by the denominator is reachable. -/
theorem denominator_precondition_errors :
    (∀ mi d : ℚ, mi ≤ 0 → hasError (compute_debt_to_income_ratio mi d) = true) ∧
    (∀ la pv : ℚ, pv ≤ 0 → hasError (compute_loan_to_value_ratio la pv) = true) ∧
    (∀ cu cl : ℚ, cl ≤ 0 → hasError (compute_credit_utilization_ratio cu cl) = true) ∧
    (∀ mi e p o : ℚ, mi ≤ 0 → hasError (compute_foir mi e p o) = true) ∧
    (∀ noi tds : ℚ, tds ≤ 0 → hasError (compute_dscr noi tds) = true) ∧
    (∀ cv la ld : ℚ, la ≤ 0 → hasError (compute_collateral_coverage_ratio cv la ld) = true) := by
  refine ⟨?_, ?_, ?_, ?_, ?_, ?_⟩ <;> intro a b
  · intro h
    unfold compute_debt_to_income_ratio
    rw [if_pos h]
    rfl
  · intro h
    unfold compute_loan_to_value_ratio
    rw [if_pos h]
    rfl
  · intro h
    unfold compute_credit_utilization_ratio
    rw [if_pos h]
    rfl
  · intro p o h
    unfold compute_foir
    rw [if_pos h]
    rfl
  · intro h
    unfold compute_dscr
    rw [if_pos h]
    rfl
  · intro ld h
    unfold compute_collateral_coverage_ratio
    rw [if_pos h]
    rfl

/-- Witness for C7: each of the six calculators applied to a zero or negative
denominator returns an error record. -/
theorem denominator_precondition_errors_witness :
    hasError (compute_debt_to_income_ratio 0 5000) = true ∧
    hasError (compute_loan_to_value_ratio 800000 0) = true ∧
    hasError (compute_credit_utilization_ratio 15000 (-1)) = true ∧
    hasError (compute_foir (-3) 20000 15000 5000) = true ∧
    hasError (compute_dscr 500000 0) = true ∧
    hasError (compute_collateral_coverage_ratio 1500000 (-2) (1/5)) = true :=
  ⟨denominator_precondition_errors.1 0 5000 (by norm_num),
    denominator_precondition_errors.2.1 800000 0 (by norm_num),
    denominator_precondition_errors.2.2.1 15000 (-1) (by norm_num),
    denominator_precondition_errors.2.2.2.1 (-3) 20000 15000 5000 (by norm_num),
    denominator_precondition_errors.2.2.2.2.1 500000 0 (by norm_num),
    denominator_precondition_errors.2.2.2.2.2 1500000 (-2) (1/5) (by norm_num)⟩

/-- Counterexample to C8 as stated: `assess_employment_stability` called with
`years_in_current_job = -1` (violating the documented `>= 0` precondition)
returns a normal result, not an error record — the function performs no input
validation. -/
theorem employment_no_validation_counterexample :
    hasError (assess_employment_stability "salaried" (-1) 10 0) = false := rfl

/-- Claim C8 (amended): every explicitly validated documented precondition —
the six positive denominators (`monthly_income` for DTI and FOIR,
`property_value`, `credit_limit`, `total_debt_service`, `loan_amount`),
`compute_emi`'s positive principal, non-negative rate and positive tenure,
the non-negative amounts (DTI debt, LTV loan, utilization credit used, FOIR
obligation sum, CCR collateral), the credit-score range [300, 900],
`total_accounts >= 1`, and the liquidation discount in [0, 1) — produces an
error record when violated; but `assess_employment_stability` performs no
input validation at all: every call, including one with negative
`years_in_current_job` or `total_work_experience`, returns a non-error record
in which the negative tenure/experience contributions flow into the score
factors. -/
theorem precondition_validation_amended :
    (∀ mi d : ℚ, mi ≤ 0 → hasError (compute_debt_to_income_ratio mi d) = true) ∧
    (∀ la pv : ℚ, pv ≤ 0 → hasError (compute_loan_to_value_ratio la pv) = true) ∧
    (∀ cu cl : ℚ, cl ≤ 0 → hasError (compute_credit_utilization_ratio cu cl) = true) ∧
    (∀ mi e p o : ℚ, mi ≤ 0 → hasError (compute_foir mi e p o) = true) ∧
    (∀ noi tds : ℚ, tds ≤ 0 → hasError (compute_dscr noi tds) = true) ∧
    (∀ cv la ld : ℚ, la ≤ 0 → hasError (compute_collateral_coverage_ratio cv la ld) = true) ∧
    (∀ (p r : ℚ) (n : ℤ), p ≤ 0 → hasError (compute_emi p r n) = true) ∧
    (∀ (p r : ℚ) (n : ℤ), 0 < p → r < 0 → hasError (compute_emi p r n) = true) ∧
    (∀ (p r : ℚ) (n : ℤ), 0 < p → 0 ≤ r → n ≤ 0 → hasError (compute_emi p r n) = true) ∧
    (∀ mi d : ℚ, 0 < mi → d < 0 → hasError (compute_debt_to_income_ratio mi d) = true) ∧
    (∀ la pv : ℚ, 0 < pv → la < 0 → hasError (compute_loan_to_value_ratio la pv) = true) ∧
    (∀ cu cl : ℚ, 0 < cl → cu < 0 → hasError (compute_credit_utilization_ratio cu cl) = true) ∧
    (∀ mi e p o : ℚ, 0 < mi → e + p + o < 0 → hasError (compute_foir mi e p o) = true) ∧
    (∀ cv la ld : ℚ, 0 < la → cv < 0 → hasError (compute_collateral_coverage_ratio cv la ld) = true) ∧
    (∀ cs : ℤ, cs < 300 ∨ cs > 900 → hasError (assess_credit_score cs) = true) ∧
    (∀ ta ot l3 l6 l9 d : ℤ, ta ≤ 0 →
      (compute_payment_history_score ta ot l3 l6 l9 d).hasErrorKey = true) ∧
    (∀ cv la ld : ℚ, 0 < la → 0 ≤ cv → ¬(0 ≤ ld ∧ ld < 1) →
      hasError (compute_collateral_coverage_ratio cv la ld) = true) ∧
    (∀ (et : String) (y tw : ℚ) (jc : ℤ),
      hasError (assess_employment_stability et y tw jc) = false) ∧
    (∀ (et : String) (y tw : ℚ) (jc : ℤ), y < 0 →
      y * 6 < 0 ∧ tenureScoreD (assess_employment_stability et y tw jc) = round2 (y * 6)) ∧
    (∀ (et : String) (y tw : ℚ) (jc : ℤ), tw < 0 →
      tw * 2 < 0 ∧
        experienceScoreD (assess_employment_stability et y tw jc) = round2 (tw * 2)) := by
  refine ⟨?_, ?_, ?_, ?_, ?_, ?_, ?_, ?_, ?_, ?_, ?_, ?_, ?_, ?_, ?_, ?_, ?_, ?_, ?_, ?_⟩
  · intro mi d h
    unfold compute_debt_to_income_ratio
    rw [if_pos h]
    rfl
  · intro la pv h
    unfold compute_loan_to_value_ratio
    rw [if_pos h]
    rfl
  · intro cu cl h
    unfold compute_credit_utilization_ratio
    rw [if_pos h]
    rfl
  · intro mi e p o h
    unfold compute_foir
    rw [if_pos h]
    rfl
  · intro noi tds h
    unfold compute_dscr
    rw [if_pos h]
    rfl
  · intro cv la ld h
    unfold compute_collateral_coverage_ratio
    rw [if_pos h]
    rfl
  · intro p r n h
    unfold compute_emi
    rw [if_pos h]
    rfl
  · intro p r n h1 h2
    unfold compute_emi
    rw [if_neg (not_le.mpr h1), if_pos h2]
    rfl
  · intro p r n h1 h2 h3
    unfold compute_emi
    rw [if_neg (not_le.mpr h1), if_neg (not_lt.mpr h2), if_pos h3]
    rfl
  · intro mi d h1 h2
    unfold compute_debt_to_income_ratio
    rw [if_neg (not_le.mpr h1), if_pos h2]
    rfl
  · intro la pv h1 h2
    unfold compute_loan_to_value_ratio
    rw [if_neg (not_le.mpr h1), if_pos h2]
    rfl
  · intro cu cl h1 h2
    unfold compute_credit_utilization_ratio
    rw [if_neg (not_le.mpr h1), if_pos h2]
    rfl
  · intro mi e p o h1 h2
    simp only [compute_foir]
    rw [if_neg (not_le.mpr h1), if_pos h2]
    rfl
  · intro cv la ld h1 h2
    unfold compute_collateral_coverage_ratio
    rw [if_neg (not_le.mpr h1), if_pos h2]
    rfl
  · intro cs h
    unfold assess_credit_score
    rw [if_pos h]
    rfl
  · intro ta ot l3 l6 l9 d h
    unfold compute_payment_history_score
    rw [if_pos h]
    rfl
  · intro cv la ld h1 h2 h3
    unfold compute_collateral_coverage_ratio
    rw [if_neg (not_le.mpr h1), if_neg (not_lt.mpr h2), if_pos h3]
    rfl
  · intro et y tw jc
    rfl
  · intro et y tw jc h
    refine ⟨by linarith, ?_⟩
    simp only [assess_employment_stability, tenureScoreD]
    rw [min_eq_left (by linarith : y * 6 ≤ 30)]
  · intro et y tw jc h
    refine ⟨by linarith, ?_⟩
    simp only [assess_employment_stability, experienceScoreD]
    rw [min_eq_left (by linarith : tw * 2 ≤ 20)]

/-- Witness for the amended C8: a concrete violation of each validated
precondition produces an error record, while `assess_employment_stability`
with negative tenure and experience produces a non-error record with the
negative contributions in its factors. -/
theorem precondition_validation_amended_witness :
    hasError (compute_debt_to_income_ratio (-10) 500) = true ∧
    hasError (compute_loan_to_value_ratio 800000 (-1)) = true ∧
    hasError (compute_credit_utilization_ratio 500 0) = true ∧
    hasError (compute_foir 0 1 1 1) = true ∧
    hasError (compute_dscr 100 (-5)) = true ∧
    hasError (compute_collateral_coverage_ratio 5000 0 (1/10)) = true ∧
    hasError (compute_emi 0 10 12) = true ∧
    hasError (compute_emi 1000 (-1) 12) = true ∧
    hasError (compute_emi 1000 10 0) = true ∧
    hasError (compute_debt_to_income_ratio 50000 (-100)) = true ∧
    hasError (compute_loan_to_value_ratio (-5) 1000) = true ∧
    hasError (compute_credit_utilization_ratio (-1) 1000) = true ∧
    hasError (compute_foir 1000 (-500) (-600) 0) = true ∧
    hasError (compute_collateral_coverage_ratio (-1) 1000 (1/5)) = true ∧
    hasError (assess_credit_score 901) = true ∧
    (compute_payment_history_score 0 5 0 0 0 0).hasErrorKey = true ∧
    hasError (compute_collateral_coverage_ratio 1500000 1000000 (3/2)) = true ∧
    hasError (assess_employment_stability "freelancer" (-2) (-3) 5) = false ∧
    ((-1 : ℚ) * 6 < 0 ∧
      tenureScoreD (assess_employment_stability "salaried" (-1) 10 0) = round2 (-1 * 6)) ∧
    ((-4 : ℚ) * 2 < 0 ∧
      experienceScoreD (assess_employment_stability "self_employed" 2 (-4) 1) =
        round2 (-4 * 2)) := by
  obtain ⟨h1, h2, h3, h4, h5, h6, h7, h8, h9, h10, h11, h12, h13, h14, h15, h16, h17,
    h18, h19, h20⟩ := precondition_validation_amended
  exact ⟨h1 (-10) 500 (by norm_num),
    h2 800000 (-1) (by norm_num),
    h3 500 0 (by norm_num),
    h4 0 1 1 1 (by norm_num),
    h5 100 (-5) (by norm_num),
    h6 5000 0 (1/10) (by norm_num),
    h7 0 10 12 (by norm_num),
    h8 1000 (-1) 12 (by norm_num) (by norm_num),
    h9 1000 10 0 (by norm_num) (by norm_num) (by norm_num),
    h10 50000 (-100) (by norm_num) (by norm_num),
    h11 (-5) 1000 (by norm_num) (by norm_num),
    h12 (-1) 1000 (by norm_num) (by norm_num),
    h13 1000 (-500) (-600) 0 (by norm_num) (by norm_num),
    h14 (-1) 1000 (1/5) (by norm_num) (by norm_num),
    h15 901 (Or.inr (by norm_num)),
    h16 0 5 0 0 0 0 (by norm_num),
    h17 1500000 1000000 (3/2) (by norm_num) (by norm_num) (by norm_num),
    h18 "freelancer" (-2) (-3) 5,
    h19 "salaried" (-1) 10 0 (by norm_num),
    h20 "self_employed" 2 (-4) 1 (by norm_num)⟩

/-- Claim C9: every one of the twelve exposed tools is deterministic — two
calls with identical arguments return identical outputs (the embeddings are
pure functions of their arguments, mirroring the stateless Python source). -/
theorem tools_deterministic :
    (∀ a b a' b' : ℚ, a = a' → b = b' →
      compute_debt_to_income_ratio a b = compute_debt_to_income_ratio a' b') ∧
    (∀ a b a' b' : ℚ, a = a' → b = b' →
      compute_loan_to_value_ratio a b = compute_loan_to_value_ratio a' b') ∧
    (∀ a b a' b' : ℚ, a = a' → b = b' →
      compute_credit_utilization_ratio a b = compute_credit_utilization_ratio a' b') ∧
    (∀ a b c d a' b' c' d' : ℚ, a = a' → b = b' → c = c' → d = d' →
      compute_foir a b c d = compute_foir a' b' c' d') ∧
    (∀ a b : ℚ, ∀ n : ℤ, ∀ a' b' : ℚ, ∀ n' : ℤ, a = a' → b = b' → n = n' →
      compute_emi a b n = compute_emi a' b' n') ∧
    (∀ a b a' b' : ℚ, a = a' → b = b' → compute_dscr a b = compute_dscr a' b') ∧
    (∀ (s s' : String) (a b a' b' : ℚ) (j j' : ℤ), s = s' → a = a' → b = b' → j = j' →
      assess_employment_stability s a b j = assess_employment_stability s' a' b' j') ∧
    (∀ a b c d e f a' b' c' d' e' f' : ℤ, a = a' → b = b' → c = c' → d = d' →
        e = e' → f = f' →
      compute_payment_history_score a b c d e f =
        compute_payment_history_score a' b' c' d' e' f') ∧
    (∀ a a' : ℤ, a = a' → assess_credit_score a = assess_credit_score a') ∧
    (∀ a b c a' b' c' : ℚ, a = a' → b = b' → c = c' →
      compute_collateral_coverage_ratio a b c = compute_collateral_coverage_ratio a' b' c') ∧
    (∀ (a b : ℚ) (n : ℤ) (c d : ℚ) (a' b' : ℚ) (n' : ℤ) (c' d' : ℚ),
      a = a' → b = b' → n = n' → c = c' → d = d' →
      classify_risk_category a b n c d = classify_risk_category a' b' n' c' d') ∧
    (∀ (a b : ℚ) (n : ℤ) (c d e f : ℚ) (a' b' : ℚ) (n' : ℤ) (c' d' e' f' : ℚ),
      a = a' → b = b' → n = n' → c = c' → d = d' → e = e' → f = f' →
      compute_total_risk_score a b n c d e f =
        compute_total_risk_score a' b' n' c' d' e' f') := by
  refine ⟨?_, ?_, ?_, ?_, ?_, ?_, ?_, ?_, ?_, ?_, ?_, ?_⟩ <;>
    · intros
      subst_vars
      rfl

/-- Witness for C9: each determinism conjunct applied at concrete arguments,
with the argument-equality hypotheses discharged by `rfl`. -/
theorem tools_deterministic_witness :
    compute_debt_to_income_ratio 50000 15000 = compute_debt_to_income_ratio 50000 15000 ∧
    compute_loan_to_value_ratio 800000 1000000 = compute_loan_to_value_ratio 800000 1000000 ∧
    compute_credit_utilization_ratio 15000 100000 =
      compute_credit_utilization_ratio 15000 100000 ∧
    compute_foir 100000 20000 15000 5000 = compute_foir 100000 20000 15000 5000 ∧
    compute_emi 1000000 10 120 = compute_emi 1000000 10 120 ∧
    compute_dscr 500000 300000 = compute_dscr 500000 300000 ∧
    assess_employment_stability "salaried" 5 10 1 =
      assess_employment_stability "salaried" 5 10 1 ∧
    compute_payment_history_score 5 58 2 0 0 0 = compute_payment_history_score 5 58 2 0 0 0 ∧
    assess_credit_score 780 = assess_credit_score 780 ∧
    compute_collateral_coverage_ratio 1500000 1000000 (1/5) =
      compute_collateral_coverage_ratio 1500000 1000000 (1/5) ∧
    classify_risk_category 35 80 720 75 85 = classify_risk_category 35 80 720 75 85 ∧
    compute_total_risk_score 35 80 720 75 85 25 40 =
      compute_total_risk_score 35 80 720 75 85 25 40 :=
  ⟨tools_deterministic.1 50000 15000 50000 15000 rfl rfl,
    tools_deterministic.2.1 800000 1000000 800000 1000000 rfl rfl,
    tools_deterministic.2.2.1 15000 100000 15000 100000 rfl rfl,
    tools_deterministic.2.2.2.1 100000 20000 15000 5000 100000 20000 15000 5000
      rfl rfl rfl rfl,
    tools_deterministic.2.2.2.2.1 1000000 10 120 1000000 10 120 rfl rfl rfl,
    tools_deterministic.2.2.2.2.2.1 500000 300000 500000 300000 rfl rfl,
    tools_deterministic.2.2.2.2.2.2.1 "salaried" "salaried" 5 10 5 10 1 1
      rfl rfl rfl rfl,
    tools_deterministic.2.2.2.2.2.2.2.1 5 58 2 0 0 0 5 58 2 0 0 0
      rfl rfl rfl rfl rfl rfl,
    tools_deterministic.2.2.2.2.2.2.2.2.1 780 780 rfl,
    tools_deterministic.2.2.2.2.2.2.2.2.2.1 1500000 1000000 (1/5) 1500000 1000000 (1/5)
      rfl rfl rfl,
    tools_deterministic.2.2.2.2.2.2.2.2.2.2.1 35 80 720 75 85 35 80 720 75 85
      rfl rfl rfl rfl rfl,
    tools_deterministic.2.2.2.2.2.2.2.2.2.2.2 35 80 720 75 85 25 40 35 80 720 75 85 25 40
      rfl rfl rfl rfl rfl rfl rfl⟩

/-- Claim C10: `classify_risk_category` and `compute_total_risk_score` perform
no range validation and never return an error record; a credit score outside
[300, 900] — which `assess_credit_score` rejects — is accepted by both, and in
`compute_total_risk_score` a credit score below 300 makes the normalized
credit component negative, strictly lowering the raw weighted sum relative to
a score of 300 and hence never raising (weakly lowering) the clamped
`total_score`. -/
theorem aggregators_accept_out_of_range_credit_score :
    (∀ (dti ltv : ℚ) (cs : ℤ) (emp ph : ℚ),
      hasError (classify_risk_category dti ltv cs emp ph) = false) ∧
    (∀ (dti ltv : ℚ) (cs : ℤ) (emp ph util foir : ℚ),
      hasError (compute_total_risk_score dti ltv cs emp ph util foir) = false) ∧
    (∀ cs : ℤ, cs < 300 → hasError (assess_credit_score cs) = true) ∧
    (∀ cs : ℤ, cs < 300 → credit_score_normalized cs < 0) ∧
    (∀ (dti ltv : ℚ) (cs : ℤ) (emp ph util foir : ℚ), cs < 300 →
      credit_score_normalized cs * 0.25 + ph * 0.20 + dtiScore dti * 0.15 +
          ltvScore ltv * 0.15 + emp * 0.10 + utilizationScore util * 0.10 +
          foirScore foir * 0.05 <
        credit_score_normalized 300 * 0.25 + ph * 0.20 + dtiScore dti * 0.15 +
          ltvScore ltv * 0.15 + emp * 0.10 + utilizationScore util * 0.10 +
          foirScore foir * 0.05 ∧
      totalScoreD (compute_total_risk_score dti ltv cs emp ph util foir) ≤
        totalScoreD (compute_total_risk_score dti ltv 300 emp ph util foir)) := by
  have hneg : ∀ cs : ℤ, cs < 300 → credit_score_normalized cs < 0 := by
    intro cs h
    unfold credit_score_normalized
    have h1 : (cs : ℚ) < 300 := by exact_mod_cast h
    have h2 : ((cs : ℚ) - 300) / 600 < 0 := div_neg_of_neg_of_pos (by linarith) (by norm_num)
    linarith
  have h300 : credit_score_normalized 300 = 0 := by
    unfold credit_score_normalized
    norm_num
  refine ⟨?_, ?_, ?_, hneg, ?_⟩
  · intro dti ltv cs emp ph
    rfl
  · intro dti ltv cs emp ph util foir
    rfl
  · intro cs h
    unfold assess_credit_score
    rw [if_pos (Or.inl h)]
    rfl
  · intro dti ltv cs emp ph util foir h
    have hlt : credit_score_normalized cs < credit_score_normalized 300 := by
      rw [h300]
      exact hneg cs h
    constructor
    · linarith
    · simp only [compute_total_risk_score, totalScoreD]
      exact round2_clamp_mono (by linarith)

/-- Witness for C10: a credit score of 250 is rejected by
`assess_credit_score`, accepted by both aggregators, and yields a composite
score no greater than the same inputs with a credit score of 300. -/
theorem aggregators_accept_out_of_range_credit_score_witness :
    hasError (classify_risk_category 35 80 250 75 85) = false ∧
    hasError (compute_total_risk_score 35 80 250 75 85 25 40) = false ∧
    hasError (assess_credit_score 250) = true ∧
    credit_score_normalized 250 < 0 ∧
    totalScoreD (compute_total_risk_score 35 80 250 75 85 25 40) ≤
      totalScoreD (compute_total_risk_score 35 80 300 75 85 25 40) :=
  ⟨aggregators_accept_out_of_range_credit_score.1 35 80 250 75 85,
    aggregators_accept_out_of_range_credit_score.2.1 35 80 250 75 85 25 40,
    aggregators_accept_out_of_range_credit_score.2.2.1 250 (by norm_num),
    aggregators_accept_out_of_range_credit_score.2.2.2.1 250 (by norm_num),
    (aggregators_accept_out_of_range_credit_score.2.2.2.2 35 80 250 75 85 25 40
      (by norm_num)).2⟩

end CreditRisk
